import Mathlib

/-!
Shallow embedding of `mapproxy/response.py` (the `Response` class, its
status table and the `static_file_response` helpers' building blocks).

Modelling conventions:
* Python 2 `str` values (byte strings) are modelled as Lean `String`;
  `len` of such a string is its `String.length`.
* The headers dict is modelled as an association list with dict semantics:
  `hset` replaces the value of an existing key in place (last write wins),
  `hdel` removes the key, `hget` looks a key up.
* Timestamps are `Int` (the code only compares them with `<=` and checks
  truthiness; float-ness is irrelevant to the embedded operations).
* External collaborators that live outside `src/` are passed in as
  function parameters: `parse` for `mapproxy.util.times.parse_httpdate`,
  `fmt` for `format_httpdate`, `md5hex` for `hashlib.md5(..).hexdigest()`.
-/

/-- Header mapping, association list with unique keys (a Python dict). -/
abbrev Headers := List (String × String)

/-- Dict lookup: `headers.get(k)`. -/
def hget : Headers → String → Option String
  | [], _ => none
  | (k', v') :: t, k => if k' = k then some v' else hget t k

/-- Dict assignment: `headers[k] = v` (replace in place, else append). -/
def hset : Headers → String → String → Headers
  | [], k, v => [(k, v)]
  | (k', v') :: t, k, v => if k' = k then (k, v) :: t else (k', v') :: hset t k v

/-- Dict deletion: `del headers[k]`. -/
def hdel (h : Headers) (k : String) : Headers :=
  h.filter (fun p => p.1 ≠ k)

/-- The fixed status-code table `_status_codes` of `response.py`
(transcribed entry by entry from the source). -/
def statusCodes : List (Int × String) :=
  [ (100, "Continue"),
    (101, "Switching Protocols"),
    (200, "OK"),
    (201, "Created"),
    (202, "Accepted"),
    (203, "Non-Authoritative Information"),
    (204, "No Content"),
    (205, "Reset Content"),
    (206, "Partial Content"),
    (300, "Multiple Choices"),
    (301, "Moved Permanently"),
    (302, "Found"),
    (303, "See Other"),
    (304, "Not Modified"),
    (305, "Use Proxy"),
    (307, "Temporary Redirect"),
    (400, "Bad Request"),
    (401, "Unauthorized"),
    (402, "Payment Required"),
    (403, "Forbidden"),
    (404, "Not Found"),
    (405, "Method Not Allowed"),
    (406, "Not Acceptable"),
    (407, "Proxy Authentication Required"),
    (408, "Request Time-out"),
    (409, "Conflict"),
    (410, "Gone"),
    (411, "Length Required"),
    (412, "Precondition Failed"),
    (413, "Request Entity Too Large"),
    (414, "Request-URI Too Large"),
    (415, "Unsupported Media Type"),
    (416, "Requested range not satisfiable"),
    (417, "Expectation Failed"),
    (500, "Internal Server Error"),
    (501, "Not Implemented"),
    (502, "Bad Gateway"),
    (503, "Service Unavailable"),
    (504, "Gateway Time-out"),
    (505, "HTTP Version not supported") ]

/-- The function `status_code(code)` of `response.py`:
`str(code) + ' ' + _status_codes[code]`. A key miss (Python `KeyError`,
the spec's `UnknownStatusCode`) is `none`. -/
def status_code (code : Int) : Option String :=
  (statusCodes.lookup code).map (fun phrase => toString code ++ " " ++ phrase)

/-- Class attribute `Response.charset`. -/
def charset : String := "utf-8"

/-- Class attribute `Response.default_content_type`. -/
def default_content_type : String := "text/plain"

/-- Class attribute `Response.block_size`. -/
def block_size : Nat := 1024 * 32

/-- The three shapes a `Response.response` body can take at runtime:
a Python 2 byte string, a list of chunks, or a file-like object with
`read` (and possibly `seek`/`tell`/`ok_to_seek`). A stream carries its
remaining content and its capability flags; `ok_to_seek = none` models a
stream without that attribute. -/
inductive Body where
  | bytes (s : String)
  | chunks (l : List String)
  | stream (content : String) (ok_to_seek : Option Bool)
      (has_seek : Bool) (has_tell : Bool)
  deriving DecidableEq, Repr

/-- A value assigned to `Response.status`: `_status_set` branches on
`isinstance(status, (int, long))`. -/
inductive StatusArg where
  | int (n : Int)
  | str (s : String)
  deriving DecidableEq, Repr

/-- The state of a `Response` instance: `self.response`, `self._status`,
`self._timestamp`, `self.headers`. -/
structure Response where
  response : Body
  _status : String
  _timestamp : Option Int
  headers : Headers
  deriving DecidableEq, Repr

/-- Setter `Response._status_set`: an int is resolved through
`status_code`, anything else is stored verbatim; `none` is the failure
(`KeyError` / `UnknownStatusCode`) of an unknown int code. -/
def statusSet (status : StatusArg) : Option String :=
  match status with
  | .int n => status_code n
  | .str s => some s

/-- Assignment `self.status = status` on an existing response. -/
def Response.setStatus (r : Response) (status : StatusArg) : Option Response :=
  (statusSet status).map (fun line => { r with _status := line })

/-- Constructor `Response.__init__(response, status, content_type,
mimetype)`. A `none` argument is Python `None`; `status = none` defaults
to `200`. Fails (`none`) when the status code is unknown. -/
def Response.mk' (body : Body) (status : Option StatusArg)
    (content_type : Option String) (mimetype : Option String) :
    Option Response :=
  match statusSet (status.getD (.int 200)) with
  | none => none
  | some line =>
    let ct : Option String :=
      match mimetype with
      | some m =>
        if m ≠ "" then
          if m.startsWith "text/" then some (m ++ "; charset=" ++ charset)
          else some m
        else content_type
      | none => content_type
    let ct := ct.getD default_content_type
    some { response := body, _status := line, _timestamp := none,
           headers := hset [] "Content-type" ct }

/-- Truthiness of the `timestamp` argument of `cache_headers` (Python:
`None` and `0` are falsy). -/
def truthyTs : Option Int → Bool
  | none => false
  | some t => t ≠ 0

/-- Truthiness of the `etag_data` argument (Python: `None` and the empty
sequence are falsy). -/
def truthyEtagData : Option (List String) → Bool
  | none => false
  | some l => l ≠ []

/-- Method `Response.cache_headers(timestamp, etag_data, max_age)`.
`fmt` stands for the external `format_httpdate`; `md5hex` for
`hashlib.md5(..).hexdigest()`; the elements of `etag_data` are taken
after Python's `str()` was applied to them.

Modelled from the spec: the external `timestamp()` coercion of
`mapproxy.util.times` (not under `src/`) maps an already-numeric
timestamp to itself, per the spec's treatment of timestamps as opaque
points in time; so `self._timestamp = timestamp(date)` stores the
argument unchanged. -/
def Response.cache_headers (md5hex : String → String) (fmt : Int → String)
    (r : Response) (ts : Option Int) (etag_data : Option (List String))
    (max_age : Option Int) : Response :=
  let r1 :=
    match ts with
    | some t =>
      if t ≠ 0 then
        { r with _timestamp := some t,
                 headers := hset r.headers "Last-modified" (fmt t) }
      else r
    | none => r
  let r2 :=
    match etag_data with
    | some l =>
      if l ≠ [] then
        { r1 with headers := hset r1.headers "ETag" (md5hex (String.join l)) }
      else r1
    | none => r1
  match max_age with
  | some ma =>
    if truthyTs ts || truthyEtagData etag_data then
      let cc := "max-age=" ++ toString ma ++ " public"
      { r2 with headers := hset r2.headers "Cache-control" cc }
    else r2
  | none => r2

/-- The WSGI environ fields `make_conditional` reads. -/
structure Env where
  http_if_none_match : Option String
  http_if_modified_since : Option String
  deriving DecidableEq, Repr

/-- The comparison `self.etag == environ.get('HTTP_IF_NONE_MATCH', -1)`:
an absent header compares against the `-1` sentinel (never equal to
`None` or to a string); an absent response etag (`None`) never equals a
string. -/
def etagMatch (etag : Option String) (inm : Option String) : Bool :=
  match inm with
  | none => false
  | some s =>
    match etag with
    | none => false
    | some e => e = s

/-- The `not_modified` flag computed by `Response.make_conditional`.
`parse` stands for the external `mapproxy.util.times.parse_httpdate`.

Modelled from the spec: `parse_httpdate` is not under `src/`; per the
spec it is `parse_http_date(string) -> Timestamp|None`, with a parse
failure or an absent header yielding no timestamp, so an absent
`If-Modified-Since` gives `none` here. -/
def notModifiedCheck (parse : String → Option Int) (env : Env)
    (r : Response) : Bool :=
  if etagMatch (hget r.headers "ETag") env.http_if_none_match then true
  else
    match r._timestamp with
    | none => false
    | some ts =>
      match env.http_if_modified_since with
      | none => false
      | some d =>
        match parse d with
        | none => false
        | some t => decide (ts ≤ t)

/-- The mutation applied by `make_conditional` when `not_modified` holds:
`self.status = 304`, `self.response = []`, and removal of the
`Content-type` header when present. (`status_code 304` is in the table,
so the `getD` default is never taken.) -/
def applyNotModified (r : Response) : Response :=
  { r with
    _status := (status_code 304).getD r._status,
    response := .chunks [],
    headers :=
      if (hget r.headers "Content-type").isSome then
        hdel r.headers "Content-type"
      else r.headers }

/-- Method `Response.make_conditional(environ)`. -/
def Response.make_conditional (parse : String → Option Int) (env : Env)
    (r : Response) : Response :=
  if notModifiedCheck parse env r then applyNotModified r else r

/-- Whitespace characters stripped by Python's `int()`. -/
def isPySpace (c : Char) : Bool :=
  c = ' ' || c = '\t' || c = '\n' || c = '\r' || c = '\x0b' || c = '\x0c'

/-- Accumulate decimal digits; any non-digit character fails. -/
def natOfDigitsAux : List Char → Nat → Option Nat
  | [], acc => some acc
  | c :: t, acc =>
    if c.isDigit then natOfDigitsAux t (acc * 10 + (c.toNat - 48)) else none

/-- A non-empty all-digit character list as a number. -/
def natOfDigits : List Char → Option Nat
  | [] => none
  | c :: t => natOfDigitsAux (c :: t) 0

/-- Python 2 `int(s)` on a string: surrounding whitespace stripped, an
optional sign, then one or more decimal digits; failure (`ValueError`)
is `none`. -/
def pyInt (s : String) : Option Int :=
  let t := (s.data.dropWhile isPySpace).reverse.dropWhile isPySpace |>.reverse
  match t with
  | '+' :: rest => (natOfDigits rest).map (fun n => (n : Int))
  | '-' :: rest => (natOfDigits rest).map (fun n => -(n : Int))
  | l => (natOfDigits l).map (fun n => (n : Int))

/-- Property `Response.content_length`:
`int(self.headers.get('Content-length', 0))`; the `0` default makes a
missing header read as `0`. -/
def Response.content_length (r : Response) : Option Int :=
  match hget r.headers "Content-length" with
  | none => some 0
  | some v => pyInt v

/-- Bounded reads: `iter(lambda: f.read(block_size), '')`, splitting the
remaining stream content into blocks of at most `bs` bytes. -/
def chunkBlocksAux (bs : Nat) : Nat → String → List String
  | 0, _ => []
  | fuel + 1, s =>
    if s.isEmpty then [] else s.take bs :: chunkBlocksAux bs fuel (s.drop bs)

/-- All bounded reads of a stream's content. -/
def chunkBlocks (bs : Nat) (s : String) : List String :=
  chunkBlocksAux bs s.length s

/-- Method `Response.__call__(environ, start_response)`: finalizes
`Content-length` and the body, and returns the final response state
together with the chunk iterator it hands to the transport. A stream
with `seek`+`tell` whose `ok_to_seek` attribute is absent or true gets
its length discovered by seeking to EOF. `wsgi.file_wrapper` is modelled
by the same bounded-read chunking (the spec calls it functionally
equivalent, an optimization only), and `iter_encode` is the identity on
the byte-string chunk model (Python 2 `str` chunks pass through
`iter_encode` unchanged). -/
def Response.serve (r : Response) : Response × List String :=
  match r.response with
  | .stream content ok_to_seek has_seek has_tell =>
    let r' :=
      if (ok_to_seek.getD true) && (has_seek && has_tell) then
        { r with headers := hset r.headers "Content-length" (toString content.length) }
      else r
    (r', chunkBlocks block_size content)
  | .bytes s =>
    let r' :=
      { r with
        headers := hset r.headers "Content-length" (toString s.length),
        response := .chunks [s] }
    (r', [s])
  | .chunks l => (r, l)

/-! Dictionary lemmas. -/

theorem hget_hset (h : Headers) (k0 v k : String) :
    hget (hset h k0 v) k = if k = k0 then some v else hget h k := by
  induction h with
  | nil =>
    by_cases hk : k = k0
    · simp [hset, hget, hk]
    · simp [hset, hget, hk, Ne.symm hk]
  | cons p t ih =>
    obtain ⟨k', v'⟩ := p
    by_cases h1 : k' = k0 <;> by_cases h2 : k = k0 <;> by_cases h3 : k' = k <;>
      simp_all [hset, hget]

theorem hget_hdel (h : Headers) (k0 k : String) :
    hget (hdel h k0) k = if k = k0 then none else hget h k := by
  induction h with
  | nil => simp [hdel, hget]
  | cons p t ih =>
    obtain ⟨k', v'⟩ := p
    by_cases h1 : k' = k0 <;> by_cases h2 : k = k0 <;> by_cases h3 : k' = k <;>
      simp_all [hdel, hget]

theorem isSome_hget_hset (h : Headers) (k0 v k : String)
    (hs : (hget (hset h k0 v) k).isSome = true) :
    k = k0 ∨ (hget h k).isSome = true := by
  rw [hget_hset] at hs
  by_cases hk : k = k0
  · exact Or.inl hk
  · right; simpa [hk] using hs

/-! Lemmas about the 304 mutation. -/

theorem status_code_304 : status_code 304 = some "304 Not Modified" := by decide

theorem hget_applyNotModified (r : Response) (k : String) :
    hget (applyNotModified r).headers k =
      if k = "Content-type" then none else hget r.headers k := by
  simp only [applyNotModified]
  by_cases hp : (hget r.headers "Content-type").isSome
  · simp [hp, hget_hdel]
  · rw [Option.not_isSome_iff_eq_none] at hp
    by_cases hk : k = "Content-type" <;> simp [hp, hk]

theorem applyNotModified_timestamp (r : Response) :
    (applyNotModified r)._timestamp = r._timestamp := rfl

theorem applyNotModified_status (r : Response) :
    (applyNotModified r)._status = "304 Not Modified" := by
  simp [applyNotModified, status_code_304]

theorem applyNotModified_response (r : Response) :
    (applyNotModified r).response = Body.chunks [] := rfl

theorem notModifiedCheck_applyNotModified (parse : String → Option Int)
    (env : Env) (r : Response) :
    notModifiedCheck parse env (applyNotModified r) =
      notModifiedCheck parse env r := by
  simp only [notModifiedCheck, hget_applyNotModified, applyNotModified_timestamp]
  simp

theorem applyNotModified_idem (r : Response) :
    applyNotModified (applyNotModified r) = applyNotModified r := by
  have hct : hget (applyNotModified r).headers "Content-type" = none := by
    rw [hget_applyNotModified]; simp
  conv_lhs => rw [applyNotModified]
  rw [hct]
  simp only [Option.isSome_none, Bool.false_eq_true, if_false, status_code_304,
    Option.getD_some]
  rw [← applyNotModified_response r, ← applyNotModified_status r]

/-! Lemmas about `cache_headers`. -/

theorem cache_headers_frame (md5hex : String → String) (fmt : Int → String)
    (r : Response) (ts : Option Int) (ed : Option (List String))
    (ma : Option Int) (k : String) (h1 : k ≠ "Last-modified")
    (h2 : k ≠ "ETag") (h3 : k ≠ "Cache-control") :
    hget (Response.cache_headers md5hex fmt r ts ed ma).headers k =
      hget r.headers k := by
  rcases ts with _ | t <;> rcases ed with _ | l <;> rcases ma with _ | m <;>
    simp only [Response.cache_headers] <;> split_ifs <;>
    simp_all [hget_hset, truthyTs, truthyEtagData]

theorem cache_headers_status (md5hex : String → String) (fmt : Int → String)
    (r : Response) (ts : Option Int) (ed : Option (List String))
    (ma : Option Int) :
    (Response.cache_headers md5hex fmt r ts ed ma)._status = r._status := by
  rcases ts with _ | t <;> rcases ed with _ | l <;> rcases ma with _ | m <;>
    simp only [Response.cache_headers] <;> split_ifs <;> rfl

theorem cache_headers_response (md5hex : String → String) (fmt : Int → String)
    (r : Response) (ts : Option Int) (ed : Option (List String))
    (ma : Option Int) :
    (Response.cache_headers md5hex fmt r ts ed ma).response = r.response := by
  rcases ts with _ | t <;> rcases ed with _ | l <;> rcases ma with _ | m <;>
    simp only [Response.cache_headers] <;> split_ifs <;> rfl

/-! Claim theorems. -/

/-- C1: a response whose `ETag` header holds the string `E`, evaluated by
`make_conditional` against an environ whose `If-None-Match` equals `E`,
ends with status line `304 Not Modified`, an empty body and no
content-type header, for every timestamp on the response, every
`If-Modified-Since` value and every behavior of the external date
parser. -/
theorem etag_roundtrip_304 (parse : String → Option Int) (env : Env)
    (r : Response) (E : String)
    (hresp : hget r.headers "ETag" = some E)
    (hreq : env.http_if_none_match = some E) :
    (Response.make_conditional parse env r)._status = "304 Not Modified" ∧
    (Response.make_conditional parse env r).response = Body.chunks [] ∧
    hget (Response.make_conditional parse env r).headers "Content-type" = none := by
  have hc : notModifiedCheck parse env r = true := by
    simp [notModifiedCheck, etagMatch, hresp, hreq]
  simp only [Response.make_conditional, hc, if_true]
  refine ⟨applyNotModified_status r, applyNotModified_response r, ?_⟩
  rw [hget_applyNotModified]
  simp

theorem etag_roundtrip_304_witness :
    hget [("Content-type", "text/plain"), ("ETag", "abc")] "ETag" = some "abc" ∧
    (Env.mk (some "abc") (some "whenever")).http_if_none_match = some "abc" ∧
    ((Response.make_conditional (fun _ => some 0) (Env.mk (some "abc") (some "whenever"))
        (Response.mk (Body.bytes "hello") "200 OK" (some 99)
          [("Content-type", "text/plain"), ("ETag", "abc")]))._status = "304 Not Modified" ∧
      (Response.make_conditional (fun _ => some 0) (Env.mk (some "abc") (some "whenever"))
        (Response.mk (Body.bytes "hello") "200 OK" (some 99)
          [("Content-type", "text/plain"), ("ETag", "abc")])).response = Body.chunks [] ∧
      hget (Response.make_conditional (fun _ => some 0) (Env.mk (some "abc") (some "whenever"))
        (Response.mk (Body.bytes "hello") "200 OK" (some 99)
          [("Content-type", "text/plain"), ("ETag", "abc")])).headers "Content-type" = none) :=
  ⟨by decide, by decide,
    etag_roundtrip_304 (fun _ => some 0) (Env.mk (some "abc") (some "whenever"))
      (Response.mk (Body.bytes "hello") "200 OK" (some 99)
        [("Content-type", "text/plain"), ("ETag", "abc")])
      "abc" (by decide) (by decide)⟩

/-- C3: `make_conditional` is idempotent: a second evaluation against the
same environ leaves the response state (status, headers, body) exactly
as one evaluation does; and when the response is judged unmodified the
final state is the 304 state with an empty body and no content-type
header. -/
theorem make_conditional_idempotent (parse : String → Option Int) (env : Env)
    (r : Response) :
    Response.make_conditional parse env (Response.make_conditional parse env r) =
      Response.make_conditional parse env r ∧
    (notModifiedCheck parse env r = true →
      (Response.make_conditional parse env r)._status = "304 Not Modified" ∧
      (Response.make_conditional parse env r).response = Body.chunks [] ∧
      hget (Response.make_conditional parse env r).headers "Content-type" = none) := by
  constructor
  · by_cases h : notModifiedCheck parse env r
    · simp [Response.make_conditional, h, notModifiedCheck_applyNotModified,
        applyNotModified_idem]
    · simp [Response.make_conditional, h]
  · intro h
    simp only [Response.make_conditional, h, if_true]
    refine ⟨applyNotModified_status r, applyNotModified_response r, ?_⟩
    rw [hget_applyNotModified]
    simp

theorem make_conditional_idempotent_witness :
    notModifiedCheck (fun _ => none) (Env.mk (some "abc") none)
      (Response.mk (Body.bytes "hello") "200 OK" none
        [("Content-type", "text/plain"), ("ETag", "abc")]) = true ∧
    ((Response.make_conditional (fun _ => none) (Env.mk (some "abc") none)
        (Response.mk (Body.bytes "hello") "200 OK" none
          [("Content-type", "text/plain"), ("ETag", "abc")]))._status = "304 Not Modified" ∧
      (Response.make_conditional (fun _ => none) (Env.mk (some "abc") none)
        (Response.mk (Body.bytes "hello") "200 OK" none
          [("Content-type", "text/plain"), ("ETag", "abc")])).response = Body.chunks [] ∧
      hget (Response.make_conditional (fun _ => none) (Env.mk (some "abc") none)
        (Response.mk (Body.bytes "hello") "200 OK" none
          [("Content-type", "text/plain"), ("ETag", "abc")])).headers "Content-type" = none) :=
  ⟨by decide,
    (make_conditional_idempotent (fun _ => none) (Env.mk (some "abc") none)
      (Response.mk (Body.bytes "hello") "200 OK" none
        [("Content-type", "text/plain"), ("ETag", "abc")])).2 (by decide)⟩

/-- C4: with the etag comparison not matching and the response timestamp
equal to `T`, an `If-Modified-Since` header that parses to exactly `T`
makes the response judged unmodified (the comparison is `<=`); an absent
header, or one the external parser rejects, leaves the response not
judged unmodified and entirely unchanged. -/
theorem last_modified_boundary (parse : String → Option Int) (env : Env)
    (r : Response) (T : Int) (d : String)
    (hnm : etagMatch (hget r.headers "ETag") env.http_if_none_match = false)
    (ht : r._timestamp = some T) :
    (env.http_if_modified_since = some d → parse d = some T →
      notModifiedCheck parse env r = true) ∧
    (env.http_if_modified_since = none →
      notModifiedCheck parse env r = false ∧
      Response.make_conditional parse env r = r) ∧
    (env.http_if_modified_since = some d → parse d = none →
      notModifiedCheck parse env r = false ∧
      Response.make_conditional parse env r = r) := by
  refine ⟨?_, ?_, ?_⟩
  · intro hd hp
    simp [notModifiedCheck, hnm, ht, hd, hp]
  · intro hd
    have hc : notModifiedCheck parse env r = false := by
      simp [notModifiedCheck, hnm, ht, hd]
    exact ⟨hc, by simp [Response.make_conditional, hc]⟩
  · intro hd hp
    have hc : notModifiedCheck parse env r = false := by
      simp [notModifiedCheck, hnm, ht, hd, hp]
    exact ⟨hc, by simp [Response.make_conditional, hc]⟩

theorem last_modified_boundary_witness :
    etagMatch (hget [("Content-type", "text/plain")] "ETag")
      (Env.mk none (some "some-date")).http_if_none_match = false ∧
    (Response.mk (Body.bytes "hello") "200 OK" (some 1000)
      [("Content-type", "text/plain")])._timestamp = some 1000 ∧
    (Env.mk none (some "some-date")).http_if_modified_since = some "some-date" ∧
    (fun s => if s = "some-date" then some (1000 : Int) else none) "some-date" = some 1000 ∧
    notModifiedCheck (fun s => if s = "some-date" then some (1000 : Int) else none)
      (Env.mk none (some "some-date"))
      (Response.mk (Body.bytes "hello") "200 OK" (some 1000)
        [("Content-type", "text/plain")]) = true :=
  ⟨by decide, by decide, by decide, by decide,
    (last_modified_boundary
      (fun s => if s = "some-date" then some (1000 : Int) else none)
      (Env.mk none (some "some-date"))
      (Response.mk (Body.bytes "hello") "200 OK" (some 1000)
        [("Content-type", "text/plain")])
      1000 "some-date" (by decide) (by decide)).1 (by decide) (by decide)⟩

/-- C9: when `make_conditional` judges the response unmodified, the only
header it removes is the content-type header: every other header key
keeps exactly the value it had before the call. -/
theorem make_conditional_header_frame (parse : String → Option Int)
    (env : Env) (r : Response)
    (h : notModifiedCheck parse env r = true) :
    hget (Response.make_conditional parse env r).headers "Content-type" = none ∧
    (∀ k, k ≠ "Content-type" →
      hget (Response.make_conditional parse env r).headers k = hget r.headers k) := by
  simp only [Response.make_conditional, h, if_true]
  constructor
  · rw [hget_applyNotModified]; simp
  · intro k hk
    rw [hget_applyNotModified]
    simp [hk]

theorem make_conditional_header_frame_witness :
    notModifiedCheck (fun _ => none) (Env.mk (some "abc") none)
      (Response.mk (Body.bytes "hello") "200 OK" none
        [("Content-type", "text/plain"), ("ETag", "abc"),
         ("Last-modified", "D1"), ("Cache-control", "max-age=60 public")]) = true ∧
    hget (Response.make_conditional (fun _ => none) (Env.mk (some "abc") none)
      (Response.mk (Body.bytes "hello") "200 OK" none
        [("Content-type", "text/plain"), ("ETag", "abc"),
         ("Last-modified", "D1"), ("Cache-control", "max-age=60 public")])).headers
      "Content-type" = none ∧
    hget (Response.make_conditional (fun _ => none) (Env.mk (some "abc") none)
      (Response.mk (Body.bytes "hello") "200 OK" none
        [("Content-type", "text/plain"), ("ETag", "abc"),
         ("Last-modified", "D1"), ("Cache-control", "max-age=60 public")])).headers
      "ETag" = some "abc" ∧
    hget (Response.make_conditional (fun _ => none) (Env.mk (some "abc") none)
      (Response.mk (Body.bytes "hello") "200 OK" none
        [("Content-type", "text/plain"), ("ETag", "abc"),
         ("Last-modified", "D1"), ("Cache-control", "max-age=60 public")])).headers
      "Cache-control" = some "max-age=60 public" :=
  ⟨by decide,
    (make_conditional_header_frame (fun _ => none) (Env.mk (some "abc") none)
      (Response.mk (Body.bytes "hello") "200 OK" none
        [("Content-type", "text/plain"), ("ETag", "abc"),
         ("Last-modified", "D1"), ("Cache-control", "max-age=60 public")])
      (by decide)).1,
    ((make_conditional_header_frame (fun _ => none) (Env.mk (some "abc") none)
      (Response.mk (Body.bytes "hello") "200 OK" none
        [("Content-type", "text/plain"), ("ETag", "abc"),
         ("Last-modified", "D1"), ("Cache-control", "max-age=60 public")])
      (by decide)).2 "ETag" (by decide)).trans (by decide),
    ((make_conditional_header_frame (fun _ => none) (Env.mk (some "abc") none)
      (Response.mk (Body.bytes "hello") "200 OK" none
        [("Content-type", "text/plain"), ("ETag", "abc"),
         ("Last-modified", "D1"), ("Cache-control", "max-age=60 public")])
      (by decide)).2 "Cache-control" (by decide)).trans (by decide)⟩

/-- C5: `cache_headers` writes `max-age=<max_age> public` into the
cache-control header exactly when `timestamp` or `etag_data` is truthy
and `max_age` is not `None`; otherwise that header keeps its previous
value; and apart from the `Last-modified`, `ETag` and `Cache-control`
headers and the freshness fields, every header and field of the response
is unchanged. -/
theorem cache_headers_spec (md5hex : String → String) (fmt : Int → String)
    (r : Response) (ts : Option Int) (ed : Option (List String))
    (ma : Option Int) (m : Int) :
    ((truthyTs ts || truthyEtagData ed) = true → ma = some m →
      hget (Response.cache_headers md5hex fmt r ts ed ma).headers "Cache-control" =
        some ("max-age=" ++ toString m ++ " public")) ∧
    ((truthyTs ts || truthyEtagData ed) = false ∨ ma = none →
      hget (Response.cache_headers md5hex fmt r ts ed ma).headers "Cache-control" =
        hget r.headers "Cache-control") ∧
    (∀ k, k ≠ "Last-modified" → k ≠ "ETag" → k ≠ "Cache-control" →
      hget (Response.cache_headers md5hex fmt r ts ed ma).headers k =
        hget r.headers k) ∧
    (Response.cache_headers md5hex fmt r ts ed ma)._status = r._status ∧
    (Response.cache_headers md5hex fmt r ts ed ma).response = r.response := by
  refine ⟨?_, ?_, fun k h1 h2 h3 => cache_headers_frame md5hex fmt r ts ed ma k h1 h2 h3,
    cache_headers_status md5hex fmt r ts ed ma,
    cache_headers_response md5hex fmt r ts ed ma⟩
  · intro hc hm
    subst hm
    rcases ts with _ | t <;> rcases ed with _ | l <;>
      simp only [Response.cache_headers] <;> split_ifs <;>
      simp_all [hget_hset, truthyTs, truthyEtagData]
  · intro hc
    rcases ts with _ | t <;> rcases ed with _ | l <;> rcases ma with _ | m' <;>
      simp only [Response.cache_headers] <;> split_ifs <;>
      simp_all [hget_hset, truthyTs, truthyEtagData]

theorem cache_headers_spec_witness :
    (truthyTs (some 1000) || truthyEtagData (some ["1000", "42"])) = true ∧
    (some (60 : Int) = some (60 : Int)) ∧
    hget (Response.cache_headers (fun s => "h" ++ s) (fun t => "D" ++ toString t)
      (Response.mk (Body.bytes "hello") "200 OK" none
        [("Content-type", "text/plain")])
      (some 1000) (some ["1000", "42"]) (some 60)).headers "Cache-control" =
      some ("max-age=" ++ toString (60 : Int) ++ " public") ∧
    hget (Response.cache_headers (fun s => "h" ++ s) (fun t => "D" ++ toString t)
      (Response.mk (Body.bytes "hello") "200 OK" none
        [("Content-type", "text/plain")])
      (some 1000) (some ["1000", "42"]) (some 60)).headers "Content-type" =
      some "text/plain" :=
  ⟨by decide, rfl,
    (cache_headers_spec (fun s => "h" ++ s) (fun t => "D" ++ toString t)
      (Response.mk (Body.bytes "hello") "200 OK" none
        [("Content-type", "text/plain")])
      (some 1000) (some ["1000", "42"]) (some 60) 60).1 (by decide) rfl,
    ((cache_headers_spec (fun s => "h" ++ s) (fun t => "D" ++ toString t)
      (Response.mk (Body.bytes "hello") "200 OK" none
        [("Content-type", "text/plain")])
      (some 1000) (some ["1000", "42"]) (some 60) 60).2.2.1 "Content-type"
      (by decide) (by decide) (by decide)).trans (by decide)⟩

/-- C2 counterexample: the fixed status table of `response.py` has 40
entries (100, 101, 200-206, 300-305, 307, 400-417, 500-505), not 35 as
the claim states. -/
theorem status_table_not_35 :
    statusCodes.length = 40 ∧ ¬ statusCodes.length = 35 := by decide

/-- C2 (amended to the 40-entry table): for every code present in the
fixed table the status line is `"<code> <phrase>"` with the table's
RFC 2616 reason phrase; for every integer code outside the table,
`status_code`, constructing a response with that code, and assigning it
to the status field all fail (Python `KeyError`, the spec's
`UnknownStatusCode`). -/
theorem status_code_spec :
    statusCodes.length = 40 ∧
    (∀ code phrase, statusCodes.lookup code = some phrase →
      status_code code = some (toString code ++ " " ++ phrase)) ∧
    (∀ code, statusCodes.lookup code = none →
      status_code code = none ∧
      (∀ body ct mt, Response.mk' body (some (.int code)) ct mt = none) ∧
      (∀ r : Response, r.setStatus (.int code) = none)) := by
  refine ⟨by decide, ?_, ?_⟩
  · intro code phrase h
    simp [status_code, h]
  · intro code h
    have hsc : status_code code = none := by simp [status_code, h]
    refine ⟨hsc, ?_, ?_⟩
    · intro body ct mt
      simp [Response.mk', statusSet, hsc]
    · intro r
      simp [Response.setStatus, statusSet, hsc]

theorem status_code_spec_witness :
    statusCodes.lookup 200 = some "OK" ∧
    status_code 200 = some "200 OK" ∧
    statusCodes.lookup 999 = none ∧
    status_code 999 = none ∧
    Response.mk' (Body.bytes "x") (some (.int 999)) none none = none ∧
    (Response.mk (Body.bytes "x") "200 OK" none []).setStatus (.int 999) = none :=
  ⟨by decide, status_code_spec.2.1 200 "OK" (by decide), by decide,
    (status_code_spec.2.2 999 (by decide)).1,
    (status_code_spec.2.2 999 (by decide)).2.1 (Body.bytes "x") none none,
    (status_code_spec.2.2 999 (by decide)).2.2 (Response.mk (Body.bytes "x") "200 OK" none [])⟩

/-- C6 counterexample: the constructor stores the content type under the
header key `Content-type`, not `Content-Type` as the claim spells it. -/
theorem header_name_case_counterexample :
    (Response.mk' (Body.bytes "hello") none none none).map
        (fun r => (hget r.headers "Content-Type", hget r.headers "Content-type")) =
      some (none, some "text/plain") := by decide

/-- C6 (amended to the casing the code actually uses): every header key
the program ever writes is one of `Content-type`, `Content-length`,
`Last-modified`, `ETag`, `Cache-control` — the constructor only writes
`Content-type`; `cache_headers` adds at most `Last-modified`, `ETag` and
`Cache-control`; `make_conditional` adds none; serialization adds at
most `Content-length`. -/
theorem produced_header_names (bd : Body) (st : Option StatusArg)
    (ct mt : Option String) (r : Response) (parse : String → Option Int)
    (env : Env) (md5hex : String → String) (fmt : Int → String)
    (ts : Option Int) (ed : Option (List String)) (ma : Option Int) :
    (∀ r0, Response.mk' bd st ct mt = some r0 →
      ∀ k, (hget r0.headers k).isSome = true → k = "Content-type") ∧
    (∀ k, (hget (Response.cache_headers md5hex fmt r ts ed ma).headers k).isSome = true →
      (hget r.headers k).isSome = true ∨
        k = "Last-modified" ∨ k = "ETag" ∨ k = "Cache-control") ∧
    (∀ k, (hget (Response.make_conditional parse env r).headers k).isSome = true →
      (hget r.headers k).isSome = true) ∧
    (∀ k, (hget (Response.serve r).1.headers k).isSome = true →
      (hget r.headers k).isSome = true ∨ k = "Content-length") := by
  refine ⟨?_, ?_, ?_, ?_⟩
  · intro r0 h0 k hk
    rcases hst : statusSet (st.getD (.int 200)) with _ | line
    · simp [Response.mk', hst] at h0
    · simp only [Response.mk', hst, Option.some.injEq] at h0
      subst h0
      rw [hget_hset] at hk
      by_cases hc : k = "Content-type"
      · exact hc
      · simp [hc, hget] at hk
  · intro k hk
    by_cases h1 : k = "Last-modified"
    · exact Or.inr (Or.inl h1)
    by_cases h2 : k = "ETag"
    · exact Or.inr (Or.inr (Or.inl h2))
    by_cases h3 : k = "Cache-control"
    · exact Or.inr (Or.inr (Or.inr h3))
    rw [cache_headers_frame md5hex fmt r ts ed ma k h1 h2 h3] at hk
    exact Or.inl hk
  · intro k hk
    by_cases hc : notModifiedCheck parse env r
    · simp only [Response.make_conditional, hc, if_true] at hk
      rw [hget_applyNotModified] at hk
      by_cases hct : k = "Content-type"
      · simp [hct] at hk
      · simpa [hct] using hk
    · simpa [Response.make_conditional, hc] using hk
  · intro k hk
    rcases hr : r.response with s | l | ⟨c, oks, hs, htl⟩
    · simp only [Response.serve, hr] at hk
      rcases isSome_hget_hset r.headers "Content-length" (toString s.length) k hk with h | h
      · exact Or.inr h
      · exact Or.inl h
    · simp only [Response.serve, hr] at hk
      exact Or.inl hk
    · by_cases hcond : (oks.getD true) && (hs && htl)
      · simp only [Response.serve, hr, hcond, if_true] at hk
        rcases isSome_hget_hset r.headers "Content-length" (toString c.length) k hk with h | h
        · exact Or.inr h
        · exact Or.inl h
      · simp only [Response.serve, hr, hcond, if_false] at hk
        exact Or.inl hk

theorem produced_header_names_witness :
    (hget (Response.serve (Response.mk (Body.bytes "hello") "200 OK" none
      [("Content-type", "text/plain")])).1.headers "Content-length").isSome = true ∧
    ((hget (Response.mk (Body.bytes "hello") "200 OK" none
        [("Content-type", "text/plain")]).headers "Content-length").isSome = true ∨
      "Content-length" = "Content-length") :=
  ⟨by decide,
    (produced_header_names (Body.bytes "x") none none none
      (Response.mk (Body.bytes "hello") "200 OK" none
        [("Content-type", "text/plain")])
      (fun _ => none) (Env.mk none none) (fun s => s) (fun t => toString t)
      none none none).2.2.2 "Content-length" (by decide)⟩

/-- C7: serializing a response whose body is an already-materialized
byte string `s` sets the `Content-length` header to the length of `s`
and yields `s` as the single chunk; a `"hello"` body with default
construction settings gives `Content-length = "5"`, the single chunk
`"hello"`, and content type `text/plain`. -/
theorem serve_bytes_spec (r : Response) (s : String)
    (h : r.response = Body.bytes s) :
    (Response.serve r).2 = [s] ∧
    hget (Response.serve r).1.headers "Content-length" =
      some (toString s.length) ∧
    (Response.mk' (Body.bytes "hello") none none none).map
        (fun r0 => ((Response.serve r0).2,
          hget (Response.serve r0).1.headers "Content-length",
          hget (Response.serve r0).1.headers "Content-type")) =
      some (["hello"], some "5", some "text/plain") := by
  refine ⟨?_, ?_, by decide⟩
  · simp [Response.serve, h]
  · simp [Response.serve, h, hget_hset]

theorem serve_bytes_spec_witness :
    (Response.mk (Body.bytes "hello") "200 OK" none
      [("Content-type", "text/plain")]).response = Body.bytes "hello" ∧
    ((Response.serve (Response.mk (Body.bytes "hello") "200 OK" none
        [("Content-type", "text/plain")])).2 = ["hello"] ∧
      hget (Response.serve (Response.mk (Body.bytes "hello") "200 OK" none
        [("Content-type", "text/plain")])).1.headers "Content-length" =
        some (toString ("hello".length)) ∧
      (Response.mk' (Body.bytes "hello") none none none).map
          (fun r0 => ((Response.serve r0).2,
            hget (Response.serve r0).1.headers "Content-length",
            hget (Response.serve r0).1.headers "Content-type")) =
        some (["hello"], some "5", some "text/plain")) :=
  ⟨by decide,
    serve_bytes_spec (Response.mk (Body.bytes "hello") "200 OK" none
      [("Content-type", "text/plain")]) "hello" (by decide)⟩

/-- C8: the `content_length` property of a response with no
`Content-length` header reads as `0`; when the header is present its
value is converted with Python `int`. -/
theorem content_length_spec (r : Response) (v : String) (n : Int) :
    (hget r.headers "Content-length" = none → r.content_length = some 0) ∧
    (hget r.headers "Content-length" = some v → pyInt v = some n →
      r.content_length = some n) := by
  constructor
  · intro h1
    simp [Response.content_length, h1]
  · intro h1 h2
    simp [Response.content_length, h1, h2]

theorem content_length_spec_witness :
    (hget (Response.mk (Body.bytes "x") "200 OK" none
      [("Content-type", "text/plain")]).headers "Content-length" = none ∧
      (Response.mk (Body.bytes "x") "200 OK" none
        [("Content-type", "text/plain")]).content_length = some 0) ∧
    (hget (Response.mk (Body.bytes "x") "200 OK" none
        [("Content-type", "text/plain"), ("Content-length", "17")]).headers
        "Content-length" = some "17" ∧
      pyInt "17" = some 17 ∧
      (Response.mk (Body.bytes "x") "200 OK" none
        [("Content-type", "text/plain"), ("Content-length", "17")]).content_length =
        some 17) :=
  ⟨⟨by decide,
    (content_length_spec (Response.mk (Body.bytes "x") "200 OK" none
      [("Content-type", "text/plain")]) "17" 17).1 (by decide)⟩,
   by decide, by decide,
    (content_length_spec (Response.mk (Body.bytes "x") "200 OK" none
      [("Content-type", "text/plain"), ("Content-length", "17")]) "17" 17).2
      (by decide) (by decide)⟩

/-- C10: assigning a non-integer (string) value to the status field
stores it verbatim, never fails and never consults the status table;
only an integer assignment goes through `status_code`. -/
theorem status_set_verbatim (r : Response) (s : String) :
    r.setStatus (.str s) = some { r with _status := s } ∧
    (∀ n : Int, r.setStatus (.int n) =
      (status_code n).map (fun line => { r with _status := line })) := by
  exact ⟨rfl, fun n => rfl⟩
